import Mathlib

/-!
# Blogicum: a shallow embedding of the blog application's query and view logic

This file embeds, in Lean, the data model and the view/service functions of the
Django blog application `blogicum` (apps `blog`, `users`, `pages`), and proves
properties of that embedding.

Conventions of the embedding:
* Database tables become Lean lists of records; a queryset filter becomes
  `List.filter`; `order_by(-pub_date)` becomes an insertion sort by
  descending `pub_date`.
* Timestamps (`pub_date`, `timezone.now()`) are `Nat`.
* Users are identified by their primary key (`Nat`); `request.user` is an
  `Option Nat` (`none` = anonymous).
* `select_related(category)` is reflected by denormalising the category
  foreign key: a `Post` carries `category : Option Category` directly.
  The Django filter `category__is_published=True` performs an INNER JOIN on
  the nullable foreign key, so rows with `category IS NULL` are excluded;
  the embedding mirrors this with a `none => false` branch.
* An HTTP response is a `Resp`; raising `Http404` becomes `Resp.notFound`,
  raising `PermissionDenied` becomes `Resp.forbidden`, `@login_required` /
  `LoginRequiredMixin` failure becomes `Resp.loginRedirect`, and
  `@require_POST` failure becomes `Resp.methodNotAllowed`.
* Views that can write to the database return the updated table alongside
  the response; all other state (sessions, templates) is out of scope.
-/

/-- HTTP request method (only the methods the routed views distinguish). -/
inductive Method
  | get
  | post
deriving DecidableEq

/-- Outcome of a view, abstracting a Django `HttpResponse`. -/
inductive Resp
  | render (template : String)
  | redirect (target : String)
  | loginRedirect
  | notFound
  | forbidden
  | methodNotAllowed
deriving DecidableEq

/-- HTTP status code of a response. -/
def Resp.status : Resp → Nat
  | .render _ => 200
  | .redirect _ => 302
  | .loginRedirect => 302
  | .notFound => 404
  | .forbidden => 403
  | .methodNotAllowed => 405

/-- Model of `blog.models.Category` (fields from `PublishedModel` inlined). -/
structure Category where
  id : Nat
  title : String
  description : String
  slug : String
  is_published : Bool
  created_at : Nat
deriving DecidableEq

/-- Model of `blog.models.Post` (fields from `PublishedModel` inlined; the `category`
and `location` foreign keys are nullable, `author` is not). -/
structure Post where
  id : Nat
  title : String
  text : String
  pub_date : Nat
  is_published : Bool
  author : Nat
  category : Option Category
  location : Option Nat
  image : Option String
  created_at : Nat
deriving DecidableEq

/-- Modelled from the spec: the `Comment` model class is imported by
`blog/views.py`, `blog/forms.py` and `blog/admin.py` but its definition is
absent from `blog/models.py` in the sources. Fields follow the spec's data
model table ("text, created timestamp, published flag; belongs to one post,
one author") and the field names used by the views and by
`admin.CommentAdmin.list_display` (`author`, `text`, `post`, `created_at`,
`is_published`). `post` and `author` hold the referenced primary keys. -/
structure Comment where
  id : Nat
  text : String
  post : Nat
  author : Nat
  created_at : Nat
  is_published : Bool
deriving DecidableEq

/-- The user model: primary key and username (credentials are delegated to
the framework and irrelevant here). -/
structure User where
  id : Nat
  username : String
deriving DecidableEq

/-- Modelled from the spec: `blog/constants.py` is present but empty in the
sources, while the views import `POSTS_PER_PAGE` from it. The spec's
pagination example ("paginating 7 posts with page size 5") and the `index`
docstring ("список из 5 последних опубликованных постов") fix the page size
at 5. -/
def POSTS_PER_PAGE : Nat := 5

/-- The row filter applied by `get_published_posts` (`blog/views.py` lines
30–36 and `blog/service.py` lines 50–55): `is_published=True`,
`pub_date__lte=now`, `category__is_published=True`. The last condition
joins through the nullable `category` foreign key, so a post whose
`category` is NULL is excluded (`none => false`). -/
def published_pred (now : Nat) (p : Post) : Bool :=
  p.is_published && decide (p.pub_date ≤ now) &&
    (match p.category with
     | some c => c.is_published
     | none => false)

/-- Embedding of `blog.views.get_published_posts`: the base queryset of publicly visible
posts (`select_related` only prefetches and does not change the row set). -/
def get_published_posts (now : Nat) (posts : List Post) : List Post :=
  posts.filter (published_pred now)

/-- The feed-membership predicate as the spec words it (§4.1 and §8):
`published == true AND publish_time <= now AND (category is null OR
category.published == true)`. This definition follows the SPEC's words, for
comparison with `published_pred`, which follows the code; they differ on
posts with no category. -/
def spec_feed_pred (now : Nat) (p : Post) : Bool :=
  p.is_published && decide (p.pub_date ≤ now) &&
    (match p.category with
     | some c => c.is_published
     | none => true)

/-- Insert a post into a list sorted by descending `pub_date`. -/
def insertDesc (p : Post) : List Post → List Post
  | [] => [p]
  | q :: qs => if q.pub_date ≤ p.pub_date then p :: q :: qs else q :: insertDesc p qs

/-- Embedding of `order_by(-pub_date)`: sort by descending publication date. -/
def sortByPubDateDesc : List Post → List Post
  | [] => []
  | p :: ps => insertDesc p (sortByPubDateDesc ps)

/-- Embedding of `django.core.paginator.Paginator.num_pages` with `orphans=0` and
`allow_empty_first_page=True`: `ceil(max(1, count) / per_page)`. -/
def paginator_num_pages (count per_page : Nat) : Nat :=
  if count = 0 then 1 else (count + per_page - 1) / per_page

/-- The object list of page `n` (1-based): `object_list[(n-1)*per : n*per]`,
as sliced by `Paginator.page`. -/
def page_items (l : List α) (per_page n : Nat) : List α :=
  (l.drop ((n - 1) * per_page)).take per_page

/-- A Django `Page` object: its 1-based number, its slice of the object
list, and the paginator's page count (`has_next` / `has_previous` are
derived: `number < num_pages`, `1 < number`). -/
structure PageResult (α : Type) where
  number : Nat
  object_list : List α
  num_pages : Nat
deriving DecidableEq

/-- Embedding of `Paginator.get_page` composed with reading `request.GET.get(page)`:
the parameter is modelled post-parsing, `none` standing for an absent or
non-integer value (Django's `PageNotAnInteger`, resolved to page 1) and
`some i` for an integer value (out of range raises `EmptyPage`, resolved to
the LAST page `num_pages`). -/
def paginator_get_page (param : Option Int) (l : List α) (per_page : Nat) :
    PageResult α :=
  let np := paginator_num_pages l.length per_page
  let n : Nat :=
    match param with
    | none => 1
    | some i => if i < 1 then np else if (np : Int) < i then np else i.toNat
  { number := n, object_list := page_items l per_page n, num_pages := np }

/-- Embedding of `blog.views.index`: the paginated feed at `/`; publicly visible posts,
newest first, `POSTS_PER_PAGE` per page. The request's user plays no role. -/
def index (now : Nat) (posts : List Post) (page : Option Int) :
    PageResult Post :=
  paginator_get_page page (sortByPubDateDesc (get_published_posts now posts))
    POSTS_PER_PAGE

/-- Embedding of `blog.views.post_detail` (the second, effective definition at
`blog/views.py` line 79): look the post up inside `get_published_posts()` —
the same filter for every requester, the author included — and render it
with all its comments; `none` is the `Http404` outcome. The `_viewer`
argument is unused exactly because the code never consults
`request.user`. -/
def post_detail (now : Nat) (_viewer : Option Nat) (posts : List Post)
    (comments : List Comment) (post_id : Nat) : Option (Post × List Comment) :=
  ((get_published_posts now posts).find? (fun p => p.id == post_id)).map
    (fun p => (p, comments.filter (fun c => c.post == p.id)))

/-- Embedding of `blog.views.category_posts`: 404 unless a category with the slug exists
and is published; then the publicly visible posts of that category, newest
first, paginated. `none` is the `Http404` outcome. -/
def category_posts (now : Nat) (posts : List Post) (cats : List Category)
    (category_slug : String) (page : Option Int) :
    Option (Category × PageResult Post) :=
  (cats.find? (fun c => c.slug == category_slug && c.is_published)).map
    (fun cat =>
      (cat, paginator_get_page page
        (sortByPubDateDesc ((get_published_posts now posts).filter
          (fun p =>
            match p.category with
            | some c => c.id == cat.id
            | none => false)))
        POSTS_PER_PAGE))

/-- The post list of `users.views.profile`: every post of the profile owner
when the viewer IS the owner; otherwise only posts with `is_published=True`
and `pub_date <= now` (note: no category condition here), newest first. -/
def profile_post_list (viewer : Option Nat) (now : Nat) (posts : List Post)
    (owner : Nat) : List Post :=
  sortByPubDateDesc
    (if viewer = some owner then
      posts.filter (fun p => p.author == owner)
    else
      posts.filter (fun p =>
        p.author == owner && p.is_published && decide (p.pub_date ≤ now)))

/-- Embedding of `users.views.profile`: 404 unless a user with the username exists; then
the owner's post list (as above), paginated. -/
def profile (viewer : Option Nat) (now : Nat) (users : List User)
    (posts : List Post) (username : String) (page : Option Int) :
    Option (User × PageResult Post) :=
  (users.find? (fun u => u.username == username)).map
    (fun u =>
      (u, paginator_get_page page (profile_post_list viewer now posts u.id)
        POSTS_PER_PAGE))

/-- The data of `blog.forms.PostForm` (`ModelForm` with
`exclude = (author,)`): every editable `Post` field except `author` —
there is, by construction, no author field a client could submit. -/
structure PostFormInput where
  title : String
  text : String
  pub_date : Option Nat
  is_published : Bool
  category : Option Category
  location : Option Nat
  image : Option String
deriving DecidableEq

/-- Validation of `PostForm`: required fields per the model declarations —
`title` (non-empty, max length 256), `text` (non-empty), `pub_date`, and
`category` (the foreign key is `null=True` but not `blank=True`, so the
form field is required); `location` and `image` are `blank=True`, hence
optional. -/
def PostFormInput.is_valid (f : PostFormInput) : Bool :=
  decide (f.title ≠ "") && decide (f.title.length ≤ 256) &&
    decide (f.text ≠ "") && f.pub_date.isSome && f.category.isSome

/-- Embedding of `form.save(commit=False)` for a creating `PostForm`, followed by
`post.author = request.user; post.save()` as in `create_post`: the new row
takes every field from the form except `author`, which is set to the
requester; `id` is the fresh primary key and `created_at` is set on save. -/
def PostFormInput.to_post (f : PostFormInput) (new_id author now : Nat) :
    Post :=
  { id := new_id
    title := f.title
    text := f.text
    pub_date := f.pub_date.getD 0
    is_published := f.is_published
    author := author
    category := f.category
    location := f.location
    image := f.image
    created_at := now }

/-- Embedding of `form.save()` for an editing `PostForm` bound to an existing instance:
overwrite the form's fields, keep `id`, `author` and `created_at`. -/
def apply_post_form (f : PostFormInput) (p : Post) : Post :=
  { p with
    title := f.title
    text := f.text
    pub_date := f.pub_date.getD p.pub_date
    is_published := f.is_published
    category := f.category
    location := f.location
    image := f.image }

/-- The data of `blog.forms.CommentForm` (`fields = [text]`). -/
structure CommentFormInput where
  text : String
deriving DecidableEq

/-- Validation of `CommentForm`: the model `TextField` is required
(`blank=False` by default), so the sole field `text` must be non-empty. -/
def CommentFormInput.is_valid (f : CommentFormInput) : Bool :=
  decide (f.text ≠ "")

/-- The data of `django.contrib.auth.forms.UserChangeForm` as used by
`users.views.edit_profile`, reduced to the field the embedding tracks. -/
structure UserFormInput where
  username : String
deriving DecidableEq

/-- Validation of `UserChangeForm`: `username` is required, max length
150. -/
def UserFormInput.is_valid (f : UserFormInput) : Bool :=
  decide (f.username ≠ "") && decide (f.username.length ≤ 150)

/-- Embedding of `blog.views.create_post` (`@login_required`): on a valid POST, save a
new post whose `author` is the requester and redirect to the requester's
profile; on an invalid POST or a GET, re-render the bound form; no other
path writes. `new_id` is the primary key the database would assign. -/
def create_post (user : Option Nat) (m : Method) (posts : List Post)
    (f : PostFormInput) (new_id now : Nat) : Resp × List Post :=
  match user with
  | none => (.loginRedirect, posts)
  | some u =>
    match m with
    | .post =>
      if f.is_valid then
        (.redirect "users:profile", posts ++ [f.to_post new_id u now])
      else
        (.render "blog/create.html", posts)
    | .get => (.render "blog/create.html", posts)

/-- Embedding of `blog.views.PostUpdateView` (`LoginRequiredMixin`,
`UserPassesTestMixin`, `UpdateView`): anonymous requesters are redirected
to login; a missing pk is a 404 (raised by `get_object` inside
`test_func`); a requester who fails `test_func` (`request.user ==
object.author`) gets `PermissionDenied` (403) before any handler runs; the
author's valid POST saves the form over the object and redirects to the
detail page; the author's GET or invalid POST re-renders the form. -/
def post_update_view (user : Option Nat) (posts : List Post) (pk : Nat)
    (m : Method) (f : PostFormInput) : Resp × List Post :=
  match user with
  | none => (.loginRedirect, posts)
  | some u =>
    match posts.find? (fun p => p.id == pk) with
    | none => (.notFound, posts)
    | some p =>
      if u = p.author then
        match m with
        | .post =>
          if f.is_valid then
            (.redirect "blog:post_detail",
              posts.map (fun q => if q.id == pk then apply_post_form f q else q))
          else
            (.render "blog/create.html", posts)
        | .get => (.render "blog/create.html", posts)
      else (.forbidden, posts)

/-- Embedding of `blog.views.PostDeleteView` (`LoginRequiredMixin`,
`UserPassesTestMixin`, `DeleteView`): same guard chain as the update view;
the author's POST deletes the object and redirects to the index; the
author's GET renders the confirmation page. -/
def post_delete_view (user : Option Nat) (posts : List Post) (pk : Nat)
    (m : Method) : Resp × List Post :=
  match user with
  | none => (.loginRedirect, posts)
  | some u =>
    match posts.find? (fun p => p.id == pk) with
    | none => (.notFound, posts)
    | some p =>
      if u = p.author then
        match m with
        | .post => (.redirect "blog:index", posts.filter (fun q => q.id != pk))
        | .get => (.render "blog/create.html", posts)
      else (.forbidden, posts)

/-- Embedding of `blog.views.add_comment` (`@require_POST` outermost, then
`@login_required`): non-POST methods get 405; anonymous requesters are
redirected to login; the post is looked up with `get_object_or_404(Post,
id=post_id)` — the UNFILTERED table, so hidden posts qualify; a valid form
saves a comment with the requester as author and the looked-up post; valid
or not, the view then redirects to the post's detail page. -/
def add_comment (user : Option Nat) (m : Method) (posts : List Post)
    (comments : List Comment) (post_id : Nat) (f : CommentFormInput)
    (new_id now : Nat) : Resp × List Comment :=
  match m with
  | .get => (.methodNotAllowed, comments)
  | .post =>
    match user with
    | none => (.loginRedirect, comments)
    | some u =>
      match posts.find? (fun p => p.id == post_id) with
      | none => (.notFound, comments)
      | some p =>
        if f.is_valid then
          (.redirect "blog:post_detail",
            comments ++ [{ id := new_id
                           text := f.text
                           post := p.id
                           author := u
                           created_at := now
                           is_published := true }])
        else
          (.redirect "blog:post_detail", comments)

/-- Embedding of `blog.views.delete_comment` (`@login_required`): the comment is looked
up by `id=comment_id, post__id=post_id` (404 if absent); a requester other
than the comment's author gets `PermissionDenied` (403); the author's POST
deletes the comment and redirects; the author's GET renders the
confirmation page. -/
def delete_comment (user : Option Nat) (m : Method) (comments : List Comment)
    (post_id comment_id : Nat) : Resp × List Comment :=
  match user with
  | none => (.loginRedirect, comments)
  | some u =>
    match comments.find? (fun c => c.id == comment_id && c.post == post_id) with
    | none => (.notFound, comments)
    | some c =>
      if u ≠ c.author then (.forbidden, comments)
      else
        match m with
        | .post =>
          (.redirect "blog:post_detail",
            comments.filter (fun c2 => c2.id != comment_id))
        | .get => (.render "blog/comment.html", comments)

/-- Embedding of `users.views.edit_profile` (`@login_required`): a valid POST saves the
change form over the requesting user's row and redirects to the profile;
an invalid POST or a GET re-renders the bound form. -/
def edit_profile (user : Option Nat) (m : Method) (users : List User)
    (g : UserFormInput) : Resp × List User :=
  match user with
  | none => (.loginRedirect, users)
  | some u =>
    match m with
    | .post =>
      if g.is_valid then
        (.redirect "users:profile",
          users.map (fun v => if v.id == u then { v with username := g.username } else v))
      else
        (.render "users/edit_profile.html", users)
    | .get => (.render "users/edit_profile.html", users)

/-! ## Concrete instances used by counterexamples and witnesses -/

/-- A stored post with no category, published and not future-dated: the
spec's feed predicate admits it, the code's filter drops it. -/
def orphanPost : Post :=
  { id := 1
    title := "orphan"
    text := "body"
    pub_date := 0
    is_published := true
    author := 1
    category := none
    location := none
    image := none
    created_at := 0 }

/-- A published category, reused by concrete instances below. -/
def newsCategory : Category :=
  { id := 1
    title := "News"
    description := "news category"
    slug := "news"
    is_published := true
    created_at := 0 }

/-- An unpublished (draft) post by user 7, in a published category. -/
def draftPost : Post :=
  { id := 1
    title := "draft"
    text := "body"
    pub_date := 0
    is_published := false
    author := 7
    category := some newsCategory
    location := none
    image := none
    created_at := 0 }

/-- The concatenation of pages `1..k` in order (the statement-side notion
used to express that consecutive pages partition the object list). -/
def concat_pages (l : List α) (per_page : Nat) : Nat → List α
  | 0 => []
  | k + 1 => concat_pages l per_page k ++ page_items l per_page (k + 1)

/-- A valid post form submission, for concrete witnesses. -/
def samplePostForm : PostFormInput :=
  { title := "edited title"
    text := "edited body"
    pub_date := some 3
    is_published := true
    category := some newsCategory
    location := none
    image := none }

/-- A comment by user 7 on post 1, for concrete witnesses. -/
def sampleComment : Comment :=
  { id := 4
    text := "first comment"
    post := 1
    author := 7
    created_at := 2
    is_published := true }

/-- An all-empty (invalid) post form. -/
def emptyPostForm : PostFormInput :=
  { title := ""
    text := ""
    pub_date := none
    is_published := true
    category := none
    location := none
    image := none }

/-- An empty (invalid) user change form. -/
def emptyUserForm : UserFormInput :=
  { username := "" }

/-- An empty (invalid) comment form. -/
def emptyCommentForm : CommentFormInput :=
  { text := "" }

/-! ## Helper lemmas about the embedding -/

theorem mem_insertDesc (a p : Post) :
    ∀ l : List Post, a ∈ insertDesc p l ↔ a = p ∨ a ∈ l
  | [] => by simp [insertDesc]
  | q :: qs => by
    simp only [insertDesc]
    split
    · simp [List.mem_cons]
    · rw [List.mem_cons, mem_insertDesc a p qs, List.mem_cons]
      tauto

theorem mem_sortByPubDateDesc (a : Post) :
    ∀ l : List Post, a ∈ sortByPubDateDesc l ↔ a ∈ l
  | [] => Iff.rfl
  | p :: ps => by
    simp only [sortByPubDateDesc]
    rw [mem_insertDesc a p (sortByPubDateDesc ps), mem_sortByPubDateDesc a ps,
      List.mem_cons]

/-- Unfolding of the code's visibility predicate into propositions. -/
theorem published_pred_eq_true_iff (now : Nat) (p : Post) :
    published_pred now p = true ↔
      p.is_published = true ∧ p.pub_date ≤ now ∧
        ∃ c, p.category = some c ∧ c.is_published = true := by
  unfold published_pred
  cases h : p.category with
  | none => simp [h]
  | some c =>
    simp only [h, Bool.and_eq_true, decide_eq_true_iff, Option.some.injEq]
    constructor
    · rintro ⟨⟨h1, h2⟩, h3⟩
      exact ⟨h1, h2, c, rfl, h3⟩
    · rintro ⟨h1, h2, c2, hc2, h3⟩
      cases hc2
      exact ⟨⟨h1, h2⟩, h3⟩

/-! ## C1 -/

/-- C1 is refuted as stated: `orphanPost` is published, its publish
timestamp (0) is not later than now (10), and it has no category, so the
spec's iff puts it in the public feed — but `get_published_posts` (the
code) returns the empty list on the one-post table `[orphanPost]`. -/
theorem C1_counterexample :
    spec_feed_pred 10 orphanPost = true ∧
      get_published_posts 10 [orphanPost] = [] := by
  constructor <;> rfl

/-- C1 (amended): a stored post appears in the public feed's base queryset
iff it is published, its publish timestamp is not later than now, and it
HAS a category whose published flag is set — a post with no category is
excluded (the `category__is_published=True` filter inner-joins the nullable
foreign key). -/
theorem C1_feed_membership (now : Nat) (posts : List Post) (p : Post) :
    p ∈ get_published_posts now posts ↔
      p ∈ posts ∧ p.is_published = true ∧ p.pub_date ≤ now ∧
        ∃ c, p.category = some c ∧ c.is_published = true := by
  rw [get_published_posts, List.mem_filter, published_pred_eq_true_iff]

/-! ## C2 -/

/-- C2 is refuted as stated: user 7 is `draftPost`'s author, yet the
post-detail operation requested by user 7 for post 1 yields not-found
(`none`) because the post is unpublished — no author bypass exists in
`post_detail`. -/
theorem C2_counterexample :
    draftPost.author = 7 ∧ draftPost.is_published = false ∧
      post_detail 10 (some 7) [draftPost] [] 1 = none :=
  ⟨rfl, rfl, rfl⟩

/-- C2 (amended): `post_detail` applies the visibility filter to every
requester alike — the outcome does not depend on who the requester is —
and when every stored post with the requested id fails the filter (for
example the author's own unpublished or future-dated post), the author,
like anyone else, receives not-found. -/
theorem C2_no_author_bypass (now : Nat) (v v' : Option Nat)
    (posts : List Post) (comments : List Comment) (pid : Nat)
    (h : ∀ p ∈ posts, p.id = pid → published_pred now p = false) :
    post_detail now v posts comments pid = post_detail now v' posts comments pid ∧
      post_detail now v posts comments pid = none := by
  refine ⟨rfl, ?_⟩
  unfold post_detail
  rw [Option.map_eq_none', List.find?_eq_none]
  intro p hp
  rw [get_published_posts, List.mem_filter] at hp
  simp only [beq_iff_eq]
  intro hid
  have := h p hp.1 hid
  rw [this] at hp
  exact Bool.false_ne_true hp.2

/-- Witness for C2's amended theorem at a concrete input: the author (user
7) of the unpublished `draftPost` requests its detail page and receives
not-found, and an anonymous requester receives the same outcome. -/
theorem C2_witness :
    post_detail 10 (some 7) [draftPost] [] 1 = post_detail 10 none [draftPost] [] 1 ∧
      post_detail 10 (some 7) [draftPost] [] 1 = none :=
  C2_no_author_bypass 10 (some 7) none [draftPost] [] 1 (by decide)

/-! ## C3 -/

theorem concat_pages_eq_take (l : List α) (per : Nat) :
    ∀ k, concat_pages l per k = l.take (k * per)
  | 0 => by simp [concat_pages]
  | k + 1 => by
    simp only [concat_pages, concat_pages_eq_take l per k, page_items,
      Nat.add_sub_cancel]
    rw [Nat.succ_mul, List.take_add]

/-- The whole list is no longer than `num_pages * per_page`. -/
theorem length_le_num_pages_mul (len per : Nat) (hper : 0 < per) :
    len ≤ paginator_num_pages len per * per := by
  unfold paginator_num_pages
  split
  · omega
  · have h2 := (Nat.div_lt_iff_lt_mul hper).mp
      (Nat.lt_succ_self ((len + per - 1) / per))
    rw [Nat.succ_mul] at h2
    generalize (len + per - 1) / per * per = m at h2 ⊢
    omega

theorem one_le_num_pages (len per : Nat) (hper : 0 < per) :
    1 ≤ paginator_num_pages len per := by
  unfold paginator_num_pages
  split
  · exact Nat.le_refl 1
  · rw [Nat.one_le_div_iff hper]
    omega

/-- A page strictly before the last starts at least `per` short of the
end: `n * per ≤ len` when `n < num_pages`. -/
theorem mul_le_length_of_lt_num_pages (len per n : Nat) (hper : 0 < per)
    (hn : n < paginator_num_pages len per) : n * per ≤ len := by
  unfold paginator_num_pages at hn
  split at hn
  · have hn0 : n = 0 := by omega
    subst hn0
    simp
  · have h1 : n + 1 ≤ (len + per - 1) / per := hn
    have h2 := (Nat.le_div_iff_mul_le hper).mp h1
    rw [Nat.succ_mul] at h2
    generalize n * per = m at h2 ⊢
    omega

theorem page_items_length_of_lt_num_pages (l : List α) (per n : Nat)
    (hper : 0 < per) (h1 : 1 ≤ n) (hn : n < paginator_num_pages l.length per) :
    (page_items l per n).length = per := by
  have key : n * per ≤ l.length := mul_le_length_of_lt_num_pages _ _ _ hper hn
  have h2 : (n - 1) * per + per = n * per := by
    obtain ⟨m, rfl⟩ : ∃ m, n = m + 1 := ⟨n - 1, by omega⟩
    simp [Nat.succ_mul, Nat.add_sub_cancel]
  unfold page_items
  rw [List.length_take, List.length_drop]
  have h3 : per ≤ l.length - (n - 1) * per := by
    generalize (n - 1) * per = a at h2 ⊢
    generalize n * per = b at h2 key
    omega
  exact Nat.min_eq_left h3

theorem page_items_length_last (l : List α) (per : Nat) (hper : 0 < per) :
    (page_items l per (paginator_num_pages l.length per)).length =
      l.length - (paginator_num_pages l.length per - 1) * per := by
  have hnp := one_le_num_pages l.length per hper
  have hle := length_le_num_pages_mul l.length per hper
  have h2 : (paginator_num_pages l.length per - 1) * per + per =
      paginator_num_pages l.length per * per := by
    obtain ⟨m, hm⟩ : ∃ m, paginator_num_pages l.length per = m + 1 :=
      ⟨paginator_num_pages l.length per - 1, by omega⟩
    rw [hm]
    simp [Nat.succ_mul, Nat.add_sub_cancel]
  unfold page_items
  rw [List.length_take, List.length_drop]
  have h3 : l.length - (paginator_num_pages l.length per - 1) * per ≤ per := by
    generalize (paginator_num_pages l.length per - 1) * per = a at h2 ⊢
    generalize paginator_num_pages l.length per * per = b at h2 hle
    omega
  exact Nat.min_eq_right h3

/-- Pages `1..num_pages` concatenate, in order, to the whole list: no
overlap, no gap. -/
theorem concat_pages_all (l : List α) (per : Nat) (hper : 0 < per) :
    concat_pages l per (paginator_num_pages l.length per) = l := by
  rw [concat_pages_eq_take]
  exact List.take_of_length_le (length_le_num_pages_mul l.length per hper)

/-- C3: with a positive page size, (i) every page strictly before the last
holds exactly `per_page` items, (ii) the last page holds exactly the
remainder, (iii) pages `1..num_pages` concatenated in order are exactly the
full ordered sequence — no overlap, no gap — and (iv) for a sequence of 7
items with page size 5 there are 2 pages: page 1 is the first (newest) 5
and page 2 the remaining 2. -/
theorem C3_pagination_partition (l : List α) (per : Nat) (hper : 0 < per) :
    (∀ n, 1 ≤ n → n < paginator_num_pages l.length per →
        (page_items l per n).length = per) ∧
      (page_items l per (paginator_num_pages l.length per)).length =
        l.length - (paginator_num_pages l.length per - 1) * per ∧
      concat_pages l per (paginator_num_pages l.length per) = l ∧
      (l.length = 7 →
        paginator_num_pages l.length 5 = 2 ∧
          page_items l 5 1 = l.take 5 ∧ page_items l 5 2 = l.drop 5) := by
  refine ⟨fun n h1 hn => page_items_length_of_lt_num_pages l per n hper h1 hn,
    page_items_length_last l per hper, concat_pages_all l per hper, fun h7 => ?_⟩
  refine ⟨by rw [h7]; decide, by simp [page_items], ?_⟩
  unfold page_items
  exact List.take_of_length_le (by rw [List.length_drop, h7]; omega)

/-- Witness for C3 at a concrete input: the 7-element sequence
`[6, 5, 4, 3, 2, 1, 0]` (descending, newest first) with page size 5 has 2
pages; page 1 is the first five elements, page 2 the last two, and the two
pages concatenate to the whole sequence. -/
theorem C3_witness :
    concat_pages [6, 5, 4, 3, 2, 1, 0] 5
        (paginator_num_pages ([6, 5, 4, 3, 2, 1, 0] : List Nat).length 5) =
        [6, 5, 4, 3, 2, 1, 0] ∧
      paginator_num_pages ([6, 5, 4, 3, 2, 1, 0] : List Nat).length 5 = 2 ∧
      page_items ([6, 5, 4, 3, 2, 1, 0] : List Nat) 5 1 = [6, 5, 4, 3, 2] ∧
      page_items ([6, 5, 4, 3, 2, 1, 0] : List Nat) 5 2 = [1, 0] := by
  have h := C3_pagination_partition ([6, 5, 4, 3, 2, 1, 0] : List Nat) 5
    (by decide)
  exact ⟨h.2.2.1, (h.2.2.2 rfl).1, (h.2.2.2 rfl).2.1, (h.2.2.2 rfl).2.2⟩

/-! ## C4 -/

/-- C4: an authenticated requester who is not the author of the post with
the requested pk never mutates the post table through the edit or the
delete endpoint, whatever the HTTP method and whatever form data: the guard
(`UserPassesTestMixin.test_func`) rejects with 403 (or the lookup 404s)
before any write. -/
theorem C4_non_author_cannot_mutate (u pk : Nat) (posts : List Post)
    (m : Method) (f : PostFormInput)
    (h : ∀ p ∈ posts, p.id = pk → p.author ≠ u) :
    (post_update_view (some u) posts pk m f).2 = posts ∧
      (post_delete_view (some u) posts pk m).2 = posts := by
  constructor
  · unfold post_update_view
    cases hfind : posts.find? (fun p => p.id == pk) with
    | none => rfl
    | some p =>
      have hp : p ∈ posts := List.mem_of_find?_eq_some hfind
      have hid : p.id = pk := by simpa using List.find?_some hfind
      have hne : ¬(u = p.author) := fun he => h p hp hid he.symm
      simp only [if_neg hne]
  · unfold post_delete_view
    cases hfind : posts.find? (fun p => p.id == pk) with
    | none => rfl
    | some p =>
      have hp : p ∈ posts := List.mem_of_find?_eq_some hfind
      have hid : p.id = pk := by simpa using List.find?_some hfind
      have hne : ¬(u = p.author) := fun he => h p hp hid he.symm
      simp only [if_neg hne]

/-- Witness for C4 at a concrete input: user 8 (not the author, 7, of
`draftPost`) POSTs to edit and to delete post 1; the stored table is
unchanged in both cases. -/
theorem C4_witness :
    (post_update_view (some 8) [draftPost] 1 Method.post samplePostForm).2 =
        [draftPost] ∧
      (post_delete_view (some 8) [draftPost] 1 Method.post).2 = [draftPost] :=
  C4_non_author_cannot_mutate 8 1 [draftPost] Method.post samplePostForm
    (by decide)

/-! ## C5 -/

theorem paginator_get_page_number_none {α : Type} (l : List α) (per : Nat) :
    (paginator_get_page none l per).number = 1 := rfl

theorem paginator_get_page_number_some {α : Type} (l : List α) (per : Nat)
    (i : Int) :
    (paginator_get_page (some i) l per).number =
      if i < 1 then paginator_num_pages l.length per
      else if (paginator_num_pages l.length per : Int) < i then
        paginator_num_pages l.length per
      else i.toNat := rfl

theorem paginator_get_page_num_pages {α : Type} (param : Option Int)
    (l : List α) (per : Nat) :
    (paginator_get_page param l per).num_pages =
      paginator_num_pages l.length per := by
  cases param <;> rfl

/-- C5 is refuted as stated: for 10 objects at 5 per page (2 pages), the
out-of-range page number 0 is resolved to page 2 — the LAST page — although
the nearest valid page to 0 is page 1. -/
theorem C5_counterexample :
    (paginator_get_page (some 0) (List.range 10) 5).num_pages = 2 ∧
      (paginator_get_page (some 0) (List.range 10) 5).number = 2 := by
  constructor <;> rfl

/-- C5 (amended): the requested page number is 1-based and defaults to 1
when the parameter is absent (or not an integer); an in-range number is
used as is; and every out-of-range number — above the page count AND below
1 alike — is replaced by the LAST page (`num_pages`), not by the nearest
valid page, and never errors: the resolved number always lies in
`[1, num_pages]`. -/
theorem C5_page_number_resolution {α : Type} (l : List α) (per : Nat)
    (hper : 0 < per) (param : Option Int) :
    (1 ≤ (paginator_get_page param l per).number ∧
        (paginator_get_page param l per).number ≤
          (paginator_get_page param l per).num_pages) ∧
      (param = none → (paginator_get_page param l per).number = 1) ∧
      (∀ i : Int, param = some i → 1 ≤ i →
        i ≤ (paginator_num_pages l.length per : Int) →
        (paginator_get_page param l per).number = i.toNat) ∧
      (∀ i : Int, param = some i →
        (paginator_num_pages l.length per : Int) < i →
        (paginator_get_page param l per).number =
          paginator_num_pages l.length per) ∧
      (∀ i : Int, param = some i → i < 1 →
        (paginator_get_page param l per).number =
          paginator_num_pages l.length per) := by
  have hnp := one_le_num_pages l.length per hper
  rw [paginator_get_page_num_pages]
  cases param with
  | none =>
    exact ⟨⟨Nat.le_refl 1, hnp⟩, fun _ => rfl, fun i h => Option.noConfusion h,
      fun i h => Option.noConfusion h, fun i h => Option.noConfusion h⟩
  | some i =>
    simp only [paginator_get_page_number_some]
    refine ⟨⟨?_, ?_⟩, ?_, ?_, ?_, ?_⟩
    · split_ifs with h1 h2 <;> omega
    · split_ifs with h1 h2 <;> omega
    · intro h
      cases h
    · intro j hj h1 h2
      injection hj with hij
      subst hij
      rw [if_neg (show ¬i < 1 by omega),
        if_neg (show ¬(paginator_num_pages l.length per : Int) < i by omega)]
    · intro j hj h2
      injection hj with hij
      subst hij
      rw [if_neg (show ¬i < 1 by omega), if_pos h2]
    · intro j hj h1
      injection hj with hij
      subst hij
      rw [if_pos h1]

/-- Witness for C5's amended theorem at a concrete input: 10 objects at 5
per page; the absent parameter resolves to page 1, and the resolved number
is always within `[1, num_pages]`. -/
theorem C5_witness :
    (1 ≤ (paginator_get_page none (List.range 10) 5).number ∧
        (paginator_get_page none (List.range 10) 5).number ≤
          (paginator_get_page none (List.range 10) 5).num_pages) ∧
      (paginator_get_page none (List.range 10) 5).number = 1 :=
  ⟨(C5_page_number_resolution (List.range 10) 5 (by decide) none).1,
    (C5_page_number_resolution (List.range 10) 5 (by decide) none).2.1 rfl⟩

/-! ## C6 -/

theorem mem_of_mem_page_items {a : α} {l : List α} {per n : Nat}
    (h : a ∈ page_items l per n) : a ∈ l :=
  List.drop_subset _ _ (List.take_subset _ _ h)

theorem paginator_get_page_object_list {α : Type} (param : Option Int)
    (l : List α) (per : Nat) :
    (paginator_get_page param l per).object_list =
      page_items l per (paginator_get_page param l per).number := by
  cases param <;> rfl

/-- C6: a stored post whose published flag is unset appears on no page of
the feed at `/` and on no page of any category listing (both are
viewer-independent, so in particular not for an anonymous viewer), yet it
does appear in the post list of its author's profile page when the author
is the authenticated viewer. -/
theorem C6_unpublished_post_visibility (now : Nat) (posts : List Post)
    (cats : List Category) (p : Post) (slug : String) (page : Option Int)
    (u : Nat) (hp : p ∈ posts) (hunpub : p.is_published = false) :
    p ∉ (index now posts page).object_list ∧
      (∀ cat pr, category_posts now posts cats slug page = some (cat, pr) →
        p ∉ pr.object_list) ∧
      (p.author = u → p ∈ profile_post_list (some u) now posts u) := by
  refine ⟨?_, ?_, ?_⟩
  · intro hmem
    rw [index, paginator_get_page_object_list] at hmem
    have h1 := mem_of_mem_page_items hmem
    rw [mem_sortByPubDateDesc, get_published_posts, List.mem_filter,
      published_pred_eq_true_iff] at h1
    rw [h1.2.1] at hunpub
    exact Bool.noConfusion hunpub
  · intro cat pr heq hmem
    rw [category_posts, Option.map_eq_some'] at heq
    obtain ⟨c0, hc0, hpair⟩ := heq
    injection hpair with hcat hpr
    subst hpr
    rw [paginator_get_page_object_list] at hmem
    have h1 := mem_of_mem_page_items hmem
    rw [mem_sortByPubDateDesc, List.mem_filter] at h1
    have h2 := h1.1
    rw [get_published_posts, List.mem_filter,
      published_pred_eq_true_iff] at h2
    rw [h2.2.1] at hunpub
    exact Bool.noConfusion hunpub
  · intro hpa
    rw [profile_post_list, if_pos rfl, mem_sortByPubDateDesc,
      List.mem_filter]
    exact ⟨hp, by simp [hpa]⟩

/-- Witness for C6 at a concrete input: the unpublished `draftPost` (author
7) is on no feed page, on no page of the "news" category listing (whose
post list is empty, so its page object list is that of the empty list), and
is in the profile list of user 7 viewed by user 7. -/
theorem C6_witness :
    draftPost ∉ (index 10 [draftPost] none).object_list ∧
      draftPost ∉
        (paginator_get_page none ([] : List Post) POSTS_PER_PAGE).object_list ∧
      draftPost ∈ profile_post_list (some 7) 10 [draftPost] 7 :=
  ⟨(C6_unpublished_post_visibility 10 [draftPost] [newsCategory] draftPost
      "news" none 7 (by simp) rfl).1,
    (C6_unpublished_post_visibility 10 [draftPost] [newsCategory] draftPost
      "news" none 7 (by simp) rfl).2.1 newsCategory
      (paginator_get_page none ([] : List Post) POSTS_PER_PAGE) rfl,
    (C6_unpublished_post_visibility 10 [draftPost] [newsCategory] draftPost
      "news" none 7 (by simp) rfl).2.2 rfl⟩

/-! ## C7 -/

/-- C7: a requester who is not the author of the addressed comment gets
not-found (when no such comment exists) or permission-denied (when it
does), the comment table is unchanged, and the response status is never
200 — for either HTTP method. -/
theorem C7_non_author_cannot_delete_comment (u pid cid : Nat)
    (comments : List Comment) (m : Method)
    (h : ∀ c ∈ comments, c.id = cid → c.post = pid → c.author ≠ u) :
    ((delete_comment (some u) m comments pid cid).1 = Resp.notFound ∨
        (delete_comment (some u) m comments pid cid).1 = Resp.forbidden) ∧
      (delete_comment (some u) m comments pid cid).2 = comments ∧
      (delete_comment (some u) m comments pid cid).1.status ≠ 200 := by
  unfold delete_comment
  cases hfind : comments.find? (fun c => c.id == cid && c.post == pid) with
  | none => exact ⟨Or.inl rfl, rfl, (by decide : (404 : Nat) ≠ 200)⟩
  | some c =>
    have hc : c ∈ comments := List.mem_of_find?_eq_some hfind
    have hcc := List.find?_some hfind
    rw [Bool.and_eq_true, beq_iff_eq, beq_iff_eq] at hcc
    have hne : u ≠ c.author := fun he => h c hc hcc.1 hcc.2 he.symm
    refine ⟨Or.inr ?_, ?_, ?_⟩ <;> simp [if_pos hne, Resp.status]

/-- Witness for C7 at a concrete input: user 8 (not the author, 7, of
`sampleComment`) POSTs a delete for comment 4 of post 1; the response is
permission-denied or not-found, nothing is deleted, and the status is not
200. -/
theorem C7_witness :
    ((delete_comment (some 8) Method.post [sampleComment] 1 4).1 =
          Resp.notFound ∨
        (delete_comment (some 8) Method.post [sampleComment] 1 4).1 =
          Resp.forbidden) ∧
      (delete_comment (some 8) Method.post [sampleComment] 1 4).2 =
        [sampleComment] ∧
      (delete_comment (some 8) Method.post [sampleComment] 1 4).1.status ≠
        200 :=
  C7_non_author_cannot_delete_comment 8 1 4 [sampleComment] Method.post
    (by decide)

/-! ## C8 -/

/-- C8 is refuted as stated: comment creation with an empty (invalid) text
does NOT re-render the form — it responds with a redirect (HTTP 302) to the
post's detail page; no comment is stored, though. -/
theorem C8_counterexample :
    add_comment (some 7) Method.post [draftPost] [] 1 emptyCommentForm 5 20 =
        (Resp.redirect "blog:post_detail", []) ∧
      (add_comment (some 7) Method.post [draftPost] [] 1 emptyCommentForm 5
            20).1.status = 302 :=
  ⟨rfl, rfl⟩

/-- C8 (amended): when the submitted input fails validation nothing is
created or modified, and post creation and profile edit re-render the form
page (HTTP 200); comment creation, however, redirects to the post's detail
page (or 404s when the post id does not exist) instead of re-rendering. -/
theorem C8_validation_failure_behaviour (u : Nat) (posts : List Post)
    (f : PostFormInput) (new_id now : Nat) (users : List User)
    (g : UserFormInput) (comments : List Comment) (pid cnid cnow : Nat)
    (cf : CommentFormInput) (hf : f.is_valid = false)
    (hg : g.is_valid = false) (hcf : cf.is_valid = false) :
    create_post (some u) Method.post posts f new_id now =
        (Resp.render "blog/create.html", posts) ∧
      edit_profile (some u) Method.post users g =
        (Resp.render "users/edit_profile.html", users) ∧
      (add_comment (some u) Method.post posts comments pid cf cnid cnow).2 =
        comments ∧
      ((∃ p ∈ posts, p.id = pid) →
        (add_comment (some u) Method.post posts comments pid cf cnid
            cnow).1 = Resp.redirect "blog:post_detail") := by
  refine ⟨by simp [create_post, hf], by simp [edit_profile, hg], ?_, ?_⟩
  · cases hfind : posts.find? (fun q => q.id == pid) with
    | none => simp [add_comment, hfind]
    | some q => simp [add_comment, hfind, hcf]
  · rintro ⟨p, hp, hpid⟩
    cases hfind : posts.find? (fun q => q.id == pid) with
    | none =>
      have := List.find?_eq_none.mp hfind p hp
      simp [hpid] at this
    | some q => simp [add_comment, hfind, hcf]

/-- Witness for C8's amended theorem at a concrete input: an all-empty post
form, an empty username, and an empty comment text; post creation and
profile edit re-render with nothing written, and the invalid comment on
existing post 1 yields a redirect with no comment stored. -/
theorem C8_witness :
    create_post (some 7) Method.post [draftPost] emptyPostForm 5 20 =
        (Resp.render "blog/create.html", [draftPost]) ∧
      edit_profile (some 7) Method.post [] emptyUserForm =
        (Resp.render "users/edit_profile.html", []) ∧
      (add_comment (some 7) Method.post [draftPost] [] 1 emptyCommentForm 5
            20).2 = [] ∧
      ((∃ p ∈ [draftPost], p.id = 1) →
        (add_comment (some 7) Method.post [draftPost] [] 1 emptyCommentForm
            5 20).1 = Resp.redirect "blog:post_detail") :=
  C8_validation_failure_behaviour 7 [draftPost] emptyPostForm 5 20 []
    emptyUserForm [] 1 5 20 emptyCommentForm rfl rfl rfl

/-! ## C9 -/

/-- C9: an authenticated POST to comment on post id `pid` succeeds whenever
ANY stored post has that id — no visibility condition is consulted, so
unpublished, future-dated or category-unpublished posts accept comments —
and yields not-found exactly when no stored post has that id. -/
theorem C9_add_comment_ignores_visibility (u pid cnid cnow : Nat)
    (posts : List Post) (comments : List Comment) (f : CommentFormInput)
    (hvalid : f.is_valid = true) :
    ((∃ p ∈ posts, p.id = pid) →
        add_comment (some u) Method.post posts comments pid f cnid cnow =
          (Resp.redirect "blog:post_detail",
            comments ++ [{ id := cnid
                           text := f.text
                           post := pid
                           author := u
                           created_at := cnow
                           is_published := true }])) ∧
      ((∀ p ∈ posts, p.id ≠ pid) →
        add_comment (some u) Method.post posts comments pid f cnid cnow =
          (Resp.notFound, comments)) := by
  constructor
  · rintro ⟨p, hp, hpid⟩
    cases hfind : posts.find? (fun q => q.id == pid) with
    | none =>
      have := List.find?_eq_none.mp hfind p hp
      simp [hpid] at this
    | some q =>
      have hqid : q.id = pid := by simpa using List.find?_some hfind
      simp [add_comment, hfind, hvalid, hqid]
  · intro hnone
    have hfind : posts.find? (fun q => q.id == pid) = none :=
      List.find?_eq_none.mpr (fun q hq => by simp [hnone q hq])
    simp [add_comment, hfind]

/-- Witness for C9 at a concrete input: post 1 exists but is unpublished
(`draftPost`); user 9's POST of a valid comment nonetheless stores the
comment and redirects. -/
theorem C9_witness :
    add_comment (some 9) Method.post [draftPost] [] 1 { text := "nice" } 5
        20 =
      (Resp.redirect "blog:post_detail",
        [{ id := 5
           text := "nice"
           post := 1
           author := 9
           created_at := 20
           is_published := true }]) :=
  (C9_add_comment_ignores_visibility 9 1 5 20 [draftPost] []
      { text := "nice" } rfl).1 ⟨draftPost, by simp, rfl⟩

/-! ## C10 -/

/-- C10: every post present after a request to the creation endpoint either
was already stored or has the authenticated requester as its author — the
form data (which, mirroring `exclude = (author,)`, carries no author
field) cannot set a different author. -/
theorem C10_created_post_author (u : Nat) (m : Method) (posts : List Post)
    (f : PostFormInput) (new_id now : Nat) :
    ∀ p ∈ (create_post (some u) m posts f new_id now).2,
      p ∈ posts ∨ p.author = u := by
  intro p hp
  unfold create_post at hp
  cases m with
  | get => exact Or.inl hp
  | post =>
    by_cases hv : f.is_valid = true
    · simp only [hv, if_true] at hp
      rw [List.mem_append] at hp
      cases hp with
      | inl h => exact Or.inl h
      | inr h =>
        rw [List.mem_singleton] at h
        subst h
        exact Or.inr rfl
    · simp only [if_neg hv] at hp
      exact Or.inl hp

/-- Witness for C10 at a concrete input: user 7 POSTs a valid form to an
empty table; the (sole) resulting post has author 7. -/
theorem C10_witness :
    samplePostForm.to_post 5 7 20 ∈ ([] : List Post) ∨
      (samplePostForm.to_post 5 7 20).author = 7 :=
  C10_created_post_author 7 Method.post [] samplePostForm 5 20
    (samplePostForm.to_post 5 7 20) (by decide)
